import Mathlib

/- Verification of the voice-bot repository: a shallow embedding of the React
voice session controller and of the Express proxy (rate limiter, request
validation, retrying upstream invoker) found in src/frontend-1/src/App.js,
together with proofs settling the specification claims. -/

/- ===================== Voice session controller ===================== -/

/- A conversation turn, from `setConversation(prev => [...prev, {type, text}])`:
the `type` field is the string user or bot. -/
inductive Role where
  | user
  | bot
  deriving DecidableEq

structure Turn where
  role : Role
  text : String
  deriving DecidableEq

/- The React state of the VoiceBot component: the six useState cells
isListening, isProcessing, isSpeaking, conversation, currentTranscript,
error (isSupported is a startup-only capability flag, held fixed at true). -/
structure AppState where
  isListening : Bool
  isProcessing : Bool
  isSpeaking : Bool
  conversation : List Turn
  currentTranscript : String
  error : String
  deriving DecidableEq

/- The full system state adds the adapter bookkeeping that gates callbacks:
recPending (recognition.start was called, onstart not yet fired), recRunning
(onstart fired, no result or error or end yet), apiPending (the fetch inside
onresult is awaiting), synthQueued (synth.speak was called, utterance onstart
not yet fired), synthActive (utterance onstart fired, utterance not ended). -/
structure SysState where
  app : AppState
  recPending : Bool
  recRunning : Bool
  apiPending : Bool
  synthQueued : Bool
  synthActive : Bool
  deriving DecidableEq

/- The error kinds switched on in recognitionRef.current.onerror. -/
inductive RecErrorKind where
  | network
  | notAllowed
  | noSpeech
  | aborted
  | other (code : String)
  deriving DecidableEq

/- The switch(event.error) of the onerror handler. -/
def recErrorMessage : RecErrorKind → String
  | .network => "Network error. Please check your internet connection and try again. Note: HTTPS may be required."
  | .notAllowed => "Microphone access denied. Please allow microphone permissions and refresh the page."
  | .noSpeech => "No speech detected. Please try speaking again."
  | .aborted => "Speech recognition was aborted."
  | .other code => "Speech recognition error: " ++ code

/- Events driving the controller: the four user-invocable operations and the
adapter callbacks. recResult is the synchronous prefix of the async onresult
handler (up to and including starting the fetch); apiSuccess and apiFailure
are its two continuations after the await resolves (each ends with the
finally block). -/
inductive Event where
  | userStartListening
  | userStopListening
  | userStopSpeaking
  | userClearConversation
  | recStart
  | recResult (t : String)
  | recError (k : RecErrorKind)
  | recEnd
  | apiSuccess (r : String)
  | apiFailure
  | synthStart
  | synthEnd
  deriving DecidableEq

/- synth.cancel(): discards the queued or active utterance; the end events the
platform fires for a cancelled utterance clear isSpeaking, modelled here as
taking effect with the cancel. -/
def synthCancel (s : SysState) : SysState :=
  { s with synthQueued := false, synthActive := false,
           app := { s.app with isSpeaking := false } }

/- startListening: if (not recognitionRef.current or isListening or
isProcessing) return; setError(); setCurrentTranscript(); recognition.start().
Note the guard does not test isSpeaking. -/
def stepStartListening (s : SysState) : SysState :=
  if s.app.isListening || s.app.isProcessing then s
  else
    { s with recPending := true,
             app := { s.app with error := "", currentTranscript := "" } }

/- stopSpeaking: synth.cancel(); setIsSpeaking(false). -/
def stepStopSpeaking (s : SysState) : SysState :=
  let s1 := synthCancel s
  { s1 with app := { s1.app with isSpeaking := false } }

/- clearConversation: setConversation([]); setCurrentTranscript();
setError(); stopSpeaking(). -/
def stepClearConversation (s : SysState) : SysState :=
  stepStopSpeaking
    { s with app := { s.app with conversation := [], currentTranscript := "", error := "" } }

/- Effect of each event on the system state, transcribed from the handlers in
App.js. recResult appends the user turn and starts the fetch; apiSuccess
appends the bot turn, runs speakText (cancel then speak, queueing a new
utterance), then the finally block clears isProcessing; apiFailure sets the
error then the finally block clears isProcessing. -/
def applyEvent : SysState → Event → SysState
  | s, .userStartListening => stepStartListening s
  | s, .userStopListening => s
  | s, .userStopSpeaking => stepStopSpeaking s
  | s, .userClearConversation => stepClearConversation s
  | s, .recStart =>
      { s with recPending := false, recRunning := true,
               app := { s.app with isListening := true, error := "" } }
  | s, .recResult t =>
      { s with recRunning := false, apiPending := true,
               app := { s.app with
                        currentTranscript := t,
                        isListening := false,
                        isProcessing := true,
                        conversation := s.app.conversation ++ [{ role := .user, text := t }] } }
  | s, .recError k =>
      { s with recPending := false, recRunning := false,
               app := { s.app with
                        isListening := false,
                        isProcessing := false,
                        error := recErrorMessage k } }
  | s, .recEnd =>
      { s with recRunning := false, app := { s.app with isListening := false } }
  | s, .apiSuccess r =>
      let s1 := { s with app := { s.app with
                                  conversation := s.app.conversation ++ [{ role := .bot, text := r }] } }
      let s2 := synthCancel s1
      let s3 := { s2 with synthQueued := true }
      { s3 with apiPending := false, app := { s3.app with isProcessing := false } }
  | s, .apiFailure =>
      { s with apiPending := false,
               app := { s.app with
                        error := "Failed to get AI response. Please try again.",
                        isProcessing := false } }
  | s, .synthStart =>
      { s with synthQueued := false, synthActive := true,
               app := { s.app with isSpeaking := true } }
  | s, .synthEnd =>
      { s with synthActive := false, app := { s.app with isSpeaking := false } }

/- Which events the environment can deliver in a given state: user clicks are
always possible; adapter callbacks fire only for an operation in flight. -/
def enabledEv : SysState → Event → Bool
  | _, .userStartListening => true
  | _, .userStopListening => true
  | _, .userStopSpeaking => true
  | _, .userClearConversation => true
  | s, .recStart => s.recPending
  | s, .recResult _ => s.recRunning
  | s, .recError _ => s.recPending || s.recRunning
  | s, .recEnd => s.recRunning
  | s, .apiSuccess _ => s.apiPending
  | s, .apiFailure => s.apiPending
  | s, .synthStart => s.synthQueued
  | s, .synthEnd => s.synthActive

/- One step: an event that is not enabled is not delivered (no-op). -/
def stepEv (s : SysState) (e : Event) : SysState :=
  if enabledEv s e then applyEvent s e else s

def runTrace (s : SysState) (es : List Event) : SysState :=
  es.foldl stepEv s

/- A trace is valid when every event is enabled at the point it fires. -/
def validTrace : SysState → List Event → Bool
  | _, [] => true
  | s, e :: es => enabledEv s e && validTrace (applyEvent s e) es

def appInit : AppState :=
  { isListening := false, isProcessing := false, isSpeaking := false,
    conversation := [], currentTranscript := "", error := "" }

def sysInit : SysState :=
  { app := appInit, recPending := false, recRunning := false,
    apiPending := false, synthQueued := false, synthActive := false }

/- Inductive invariant of the controller: listening and processing are
mutually exclusive, the listening flag tracks the recognition session, the
processing flag tracks the pending fetch, and a recognition start request is
only pending from a quiescent controller. -/
def ctrlInvB (s : SysState) : Bool :=
  (!(s.app.isListening && s.app.isProcessing)) &&
  (s.app.isListening == s.recRunning) &&
  (s.app.isProcessing == s.apiPending) &&
  (!s.recPending || (!s.app.isListening && !s.app.isProcessing))

/- ===================== Server: rate limiter ===================== -/

def windowMs : Nat := 60 * 1000

def maxRequests : Nat := 10

/- The per-caller record kept in rateLimitStore. -/
structure RateRecord where
  count : Nat
  resetTime : Nat
  deriving DecidableEq

inductive RateDecision where
  | admitted
  | rejected429
  deriving DecidableEq

/- The rateLimit middleware for one caller: given the current record (none if
the store has no entry) and the current time, decide and return the updated
record. Rejection leaves the record unchanged. -/
def rateLimitStep (rec : Option RateRecord) (now : Nat) : RateDecision × RateRecord :=
  match rec with
  | none => (.admitted, { count := 1, resetTime := now + windowMs })
  | some d =>
      if d.resetTime < now then
        (.admitted, { count := 1, resetTime := now + windowMs })
      else if maxRequests ≤ d.count then
        (.rejected429, d)
      else
        (.admitted, { d with count := d.count + 1 })

/- A sequence of requests from one caller at the given times. -/
def runCalls (rec : Option RateRecord) : List Nat → List RateDecision × Option RateRecord
  | [] => ([], rec)
  | t :: ts =>
      let p := rateLimitStep rec t
      let q := runCalls (some p.2) ts
      (p.1 :: q.1, q.2)

/- ===================== Server: retrying upstream invoker ===================== -/

def retryDelayMs : Nat := 2000

/- error.message.includes(429) or error.message.includes(quota). -/
def retryableError (msg : String) : Bool :=
  decide ("429".toList <:+: msg.toList) || decide ("quota".toList <:+: msg.toList)

inductive InvokeOutcome where
  | success (s : String)
  | upstreamRateLimited
  | thrown (e : String)
  | noAttempt
  deriving DecidableEq

structure InvokeResult where
  outcome : InvokeOutcome
  calls : Nat
  delays : List Nat
  deriving DecidableEq

/- The while (retries > 0) loop of the /api/ask handler. The upstream is a
function from the attempt index to the outcome of model.generateContent.
attempt is the index of the next call; the fuel argument is the current value
of retries. On a retryable failure retries is decremented and, if still
positive, the handler sleeps 2000 ms and retries; at zero it returns the
terminal 429. A non-retryable error is rethrown at once. noAttempt marks the
loop exiting by its condition, unreachable from the initial budget. -/
def invokeGo (upstream : Nat → Except String String) (attempt : Nat) : Nat → InvokeResult
  | 0 => { outcome := .noAttempt, calls := attempt, delays := [] }
  | r + 1 =>
      match upstream attempt with
      | .ok v => { outcome := .success v, calls := attempt + 1, delays := [] }
      | .error e =>
          if retryableError e then
            if r = 0 then
              { outcome := .upstreamRateLimited, calls := attempt + 1, delays := [] }
            else
              let rest := invokeGo upstream (attempt + 1) r
              { rest with delays := retryDelayMs :: rest.delays }
          else
            { outcome := .thrown e, calls := attempt + 1, delays := [] }

/- let retries = 3 before the loop. -/
def invokeUpstream (upstream : Nat → Except String String) : InvokeResult :=
  invokeGo upstream 0 3

/- HTTP status produced by the handler for each loop outcome: res.json on
success (200), res.status(429) on exhausted retries, and the outer catch
turning a rethrown error into res.status(500). -/
def askStatus : InvokeOutcome → Nat
  | .success _ => 200
  | .upstreamRateLimited => 429
  | .thrown _ => 500
  | .noAttempt => 200

/- ===================== Server: POST /api/ask pipeline ===================== -/

/- The question field of the request body: absent, present but not a string,
or a string. -/
inductive ReqBody where
  | missingQuestion
  | nonStringQuestion
  | question (s : String)
  deriving DecidableEq

/- The body fails validation when (not question or typeof question is not
string) — the empty string is falsy — or question.length > 1000. -/
def invalidBody : ReqBody → Bool
  | .missingQuestion => true
  | .nonStringQuestion => true
  | .question q => q == "" || 1000 < q.length

/- app.post(/api/ask, rateLimit, handler): the rateLimit middleware runs
first; only admitted requests reach body validation and the retry loop.
Returns the HTTP status and the caller record after the request. -/
def handleAsk (rec : Option RateRecord) (now : Nat) (body : ReqBody)
    (upstream : Nat → Except String String) : Nat × RateRecord :=
  let p := rateLimitStep rec now
  match p.1 with
  | .rejected429 => (429, p.2)
  | .admitted =>
      match body with
      | .missingQuestion => (400, p.2)
      | .nonStringQuestion => (400, p.2)
      | .question q =>
          if q = "" then (400, p.2)
          else if 1000 < q.length then (400, p.2)
          else (askStatus (invokeUpstream upstream).outcome, p.2)

/- ===================== Client: callGeminiAPI ===================== -/

structure HttpResponse where
  ok : Bool
  responseField : String
  deriving DecidableEq

inductive ClientOutcome where
  | answer (s : String)
  | failure (msg : String)
  deriving DecidableEq

/- callGeminiAPI(question): one fetch, unconditionally; non-ok responses throw
a generic error, ok responses yield data.response. The second component lists
the bodies of the network requests performed. -/
def callGeminiAPI (question : String) (resp : HttpResponse) : ClientOutcome × List String :=
  (if resp.ok then .answer resp.responseField
   else .failure "Failed to get AI response", [question])

/- ===================== Concrete traces and states ===================== -/

/- Click the microphone, speak, receive the answer, synthesis starts. -/
def speakTrace : List Event :=
  [.userStartListening, .recStart, .recResult "hi", .apiSuccess "ok", .synthStart]

def speakSt : SysState := runTrace sysInit speakTrace

/- While the bot is speaking, click the microphone again: recognition starts. -/
def overlapTrace : List Event :=
  [.userStartListening, .recStart, .recResult "hi", .apiSuccess "ok", .synthStart,
   .userStartListening, .recStart]

/- Click the microphone and let recognition start. -/
def listenTrace : List Event := [.userStartListening, .recStart]

/- A canonical listening state. -/
def listenSt : SysState :=
  { sysInit with app := { appInit with isListening := true }, recRunning := true }

/- ===================== Helper lemmas ===================== -/

/-- The controller invariant is preserved by every delivered event. -/
theorem ctrlInv_step (s : SysState) (e : Event) (h : ctrlInvB s = true) :
    ctrlInvB (stepEv s e) = true := by
  obtain ⟨⟨L, P, S, conv, tr, err⟩, rp, rr, ap, sq, sa⟩ := s
  cases e <;>
    simp_all [ctrlInvB, stepEv, enabledEv, applyEvent, stepStartListening,
      stepStopSpeaking, stepClearConversation, synthCancel] <;>
    cases L <;> cases P <;> cases rp <;> cases rr <;> cases ap <;> cases sq <;>
    cases sa <;> simp_all

/-- The controller invariant holds along every event sequence. -/
theorem ctrlInv_run (es : List Event) : ∀ s : SysState, ctrlInvB s = true →
    ctrlInvB (runTrace s es) = true := by
  induction es with
  | nil => intro s h; exact h
  | cons e es ih => intro s h; exact ih (stepEv s e) (ctrlInv_step s e h)

/-- Requests inside an active window are all admitted while the count stays
within the budget, each incrementing the count by one. -/
theorem runCalls_admit_within (ts : List Nat) : ∀ c R : Nat, (∀ t ∈ ts, t ≤ R) →
    c + ts.length ≤ maxRequests →
    runCalls (some { count := c, resetTime := R }) ts =
      (ts.map fun _ => RateDecision.admitted,
        some { count := c + ts.length, resetTime := R }) := by
  induction ts with
  | nil => intro c R _ _; simp [runCalls]
  | cons t ts ih =>
      intro c R hball hlen
      have ht : t ≤ R := hball t (List.mem_cons_self t ts)
      have h1 : ¬ (R < t) := not_lt.mpr ht
      have h2 : ¬ (maxRequests ≤ c) := by
        simp only [List.length_cons] at hlen
        omega
      have hrec := ih (c + 1) R (fun x hx => hball x (List.mem_cons_of_mem t hx))
        (by simp only [List.length_cons] at hlen ⊢; omega)
      have harith : c + 1 + ts.length = c + (ts.length + 1) := by omega
      simp only [runCalls, rateLimitStep, if_neg h1, if_neg h2, hrec, List.map_cons,
        List.length_cons, harith]

/- ===================== Claims ===================== -/

/-- Claim C1 (amended): along every sequence of delivered events the
controller is never simultaneously Listening and Processing; the original
claim that no two of listening, processing and speaking ever hold together
fails, because startListening does not guard against Speaking. -/
theorem c1_listening_processing_mutex (es : List Event) :
    ((runTrace sysInit es).app.isListening && (runTrace sysInit es).app.isProcessing) =
      false := by
  have h := ctrlInv_run es sysInit rfl
  unfold ctrlInvB at h
  simp only [Bool.and_eq_true, Bool.not_eq_true'] at h
  exact h.1.1.1

/-- Claim C1 counterexample: a valid trace — listen, speak a question, receive
the answer, synthesis starts, click the microphone again, recognition starts —
reaches a state where isListening and isSpeaking hold at the same time. -/
theorem c1_counterexample_listening_and_speaking :
    validTrace sysInit overlapTrace = true ∧
    (runTrace sysInit overlapTrace).app.isListening = true ∧
    (runTrace sysInit overlapTrace).app.isSpeaking = true := by decide

/-- Claim C2 (amended): invoking an operation from an invalid source state is
a silent no-op, with one exception forced by the counterexample: startListening
is a no-op from Listening and Processing, but its guard does not test
isSpeaking, so from Speaking it proceeds. stopSpeaking invoked from any
non-Speaking state leaves the controller state and the transcript unchanged
(only the adapter synthesis queue is cleared) and raises no error, and adapter
callbacks with no matching operation in flight are not delivered, leaving the
state unchanged. -/
theorem c2_invalid_source_noop :
    (∀ s : SysState, (s.app.isListening || s.app.isProcessing) = true →
        stepEv s Event.userStartListening = s) ∧
    (∀ s : SysState, s.app.isSpeaking = false →
        (stepEv s Event.userStopSpeaking).app = s.app) ∧
    (∀ (s : SysState) (e : Event), enabledEv s e = false → stepEv s e = s) := by
  refine ⟨?_, ?_, ?_⟩
  · intro s h
    simp [stepEv, enabledEv, applyEvent, stepStartListening, h]
  · intro s h
    obtain ⟨⟨L, P, S, conv, tr, err⟩, rp, rr, ap, sq, sa⟩ := s
    simp_all [stepEv, enabledEv, applyEvent, stepStopSpeaking, synthCancel]
  · intro s e h
    simp [stepEv, h]

/-- Claim C2 witness: startListening from a listening state is a no-op,
stopSpeaking from the idle (non-Speaking) state leaves the controller state
unchanged, and a recognition onstart callback with no start in flight is not
delivered. -/
theorem c2_invalid_source_noop_witness :
    stepEv listenSt Event.userStartListening = listenSt ∧
    (stepEv sysInit Event.userStopSpeaking).app = sysInit.app ∧
    stepEv sysInit Event.recStart = sysInit :=
  ⟨c2_invalid_source_noop.1 listenSt (by decide),
   c2_invalid_source_noop.2.1 sysInit (by decide),
   c2_invalid_source_noop.2.2 sysInit Event.recStart (by decide)⟩

/-- Claim C2 counterexample: in a reachable Speaking state, invoking
startListening is not a no-op — it clears the transcript buffer, requests
recognition start, and so changes the state. -/
theorem c2_counterexample_start_from_speaking :
    validTrace sysInit speakTrace = true ∧
    speakSt.app.isSpeaking = true ∧
    speakSt.app.isListening = false ∧
    speakSt.app.isProcessing = false ∧
    stepEv speakSt Event.userStartListening ≠ speakSt := by decide

/-- Claim C3: the rate limiter admits with count 1 on a missing or expired
record, admits and increments below 10 inside the window, rejects with 429
without incrementing at 10 or more; hence 10 admitted requests inside one
window force the 11th to be rejected, and a request after the window is
admitted with the counter reset to 1. -/
theorem c3_rate_limiter_spec (t0 t10 tnew : Nat) (ts : List Nat)
    (hlen : ts.length = 9) (hts : ∀ t ∈ ts, t ≤ t0 + windowMs)
    (h10 : t10 ≤ t0 + windowMs) (hnew : t0 + windowMs < tnew) :
    runCalls none (t0 :: ts) =
      ((t0 :: ts).map (fun _ => RateDecision.admitted),
        some { count := 10, resetTime := t0 + windowMs }) ∧
    rateLimitStep (some { count := 10, resetTime := t0 + windowMs }) t10 =
      (.rejected429, { count := 10, resetTime := t0 + windowMs }) ∧
    rateLimitStep (some { count := 10, resetTime := t0 + windowMs }) tnew =
      (.admitted, { count := 1, resetTime := tnew + windowMs }) ∧
    (∀ now, rateLimitStep none now =
        (.admitted, { count := 1, resetTime := now + windowMs })) ∧
    (∀ c R now, R < now →
        rateLimitStep (some { count := c, resetTime := R }) now =
          (.admitted, { count := 1, resetTime := now + windowMs })) ∧
    (∀ c R now, now ≤ R → c < maxRequests →
        rateLimitStep (some { count := c, resetTime := R }) now =
          (.admitted, { count := c + 1, resetTime := R })) ∧
    (∀ c R now, now ≤ R → maxRequests ≤ c →
        rateLimitStep (some { count := c, resetTime := R }) now =
          (.rejected429, { count := c, resetTime := R })) := by
  refine ⟨?_, ?_, ?_, fun now => rfl, ?_, ?_, ?_⟩
  · have hrec := runCalls_admit_within ts 1 (t0 + windowMs) hts
      (by simp only [hlen, maxRequests]; omega)
    simp [runCalls, rateLimitStep, hrec, List.map_cons, hlen]
  · simp [rateLimitStep, maxRequests, not_lt.mpr h10]
  · simp [rateLimitStep, hnew]
  · intro c R now h
    simp [rateLimitStep, h]
  · intro c R now hle hc
    simp [rateLimitStep, not_lt.mpr hle, not_le.mpr hc]
  · intro c R now hle hc
    simp [rateLimitStep, not_lt.mpr hle, hc]

/-- Claim C3 witness: ten requests at time 0 are all admitted reaching count
10, an 11th inside the window is rejected unchanged, and a request after the
window is admitted with count reset to 1. -/
theorem c3_rate_limiter_spec_witness :
    runCalls none (0 :: List.replicate 9 0) =
      ((0 :: List.replicate 9 0).map (fun _ => RateDecision.admitted),
        some { count := 10, resetTime := 0 + windowMs }) ∧
    rateLimitStep (some { count := 10, resetTime := 0 + windowMs }) 5 =
      (.rejected429, { count := 10, resetTime := 0 + windowMs }) ∧
    rateLimitStep (some { count := 10, resetTime := 0 + windowMs }) 60001 =
      (.admitted, { count := 1, resetTime := 60001 + windowMs }) := by
  have h := c3_rate_limiter_spec 0 5 60001 (List.replicate 9 0)
    (by decide) (by decide) (by decide) (by decide)
  exact ⟨h.1, h.2.1, h.2.2.1⟩

/-- Claim C4: against an upstream failing retryably exactly twice then
succeeding, the invoker returns the success value after exactly 3 calls with a
2000 ms delay before each of the two retries; against an always-retryably
failing upstream it returns the terminal upstream rate-limit outcome, mapped
to HTTP 429, after exactly 3 calls and the same two delays. -/
theorem c4_retry_invoker_spec :
    (∀ (u : Nat → Except String String) (e0 e1 v : String),
        u 0 = .error e0 → u 1 = .error e1 → u 2 = .ok v →
        retryableError e0 = true → retryableError e1 = true →
        invokeUpstream u = { outcome := .success v, calls := 3, delays := [2000, 2000] }) ∧
    (∀ u : Nat → Except String String,
        (∀ n, ∃ e, u n = .error e ∧ retryableError e = true) →
        invokeUpstream u =
          { outcome := .upstreamRateLimited, calls := 3, delays := [2000, 2000] }) ∧
    askStatus .upstreamRateLimited = 429 := by
  refine ⟨?_, ?_, rfl⟩
  · intro u e0 e1 v h0 h1 h2 hr0 hr1
    simp [invokeUpstream, invokeGo, h0, h1, h2, hr0, hr1, retryDelayMs]
  · intro u h
    obtain ⟨e0, h0, hr0⟩ := h 0
    obtain ⟨e1, h1, hr1⟩ := h 1
    obtain ⟨e2, h2, hr2⟩ := h 2
    simp [invokeUpstream, invokeGo, h0, h1, h2, hr0, hr1, hr2, retryDelayMs]

/-- Claim C4 witness: an upstream failing with a 429 message twice then
answering pong yields success pong in 3 calls with two 2000 ms delays; an
upstream always failing with a quota message yields the terminal rate-limit
outcome in 3 calls. -/
theorem c4_retry_invoker_spec_witness :
    invokeUpstream (fun n => if n == 2 then .ok "pong" else .error "429") =
      { outcome := .success "pong", calls := 3, delays := [2000, 2000] } ∧
    invokeUpstream (fun _ => .error "quota") =
      { outcome := .upstreamRateLimited, calls := 3, delays := [2000, 2000] } :=
  ⟨c4_retry_invoker_spec.1 _ "429" "429" "pong" rfl rfl rfl (by decide) (by decide),
   c4_retry_invoker_spec.2.1 _ (fun _ => ⟨"quota", rfl, by decide⟩)⟩

/-- Claim C5 (amended): the client performs no local validation — for every
question, valid or not, it issues exactly one network request carrying the
question and maps the response without retrying; the non-empty and
1000-character constraints are enforced only by the server, which answers 400
(shown here for the empty question). -/
theorem c5_client_single_request :
    (∀ q d : String,
        callGeminiAPI q { ok := true, responseField := d } = (.answer d, [q])) ∧
    (∀ q d : String,
        callGeminiAPI q { ok := false, responseField := d } =
          (.failure "Failed to get AI response", [q])) ∧
    (∀ (now : Nat) (u : Nat → Except String String),
        handleAsk none now (.question "") u =
          (400, { count := 1, resetTime := now + windowMs })) :=
  ⟨fun _ _ => rfl, fun _ _ => rfl, fun _ _ => rfl⟩

/-- Claim C5 counterexample: the empty question, which the claim says must
fail locally with a validation error and no network round trip, is sent in one
network request and the ok response is returned as the answer. -/
theorem c5_counterexample_no_client_validation :
    callGeminiAPI "" { ok := true, responseField := "x" } = (.answer "x", [""]) ∧
    (callGeminiAPI "" { ok := true, responseField := "x" }).2.length = 1 := by decide

/-- Claim C6 (amended): clearConversation, from every state, empties the
conversation, clears the transcript buffer and the error, and cancels any
in-flight speaking — but it leaves the isListening and isProcessing flags
unchanged, so it forces Idle only from Idle or Speaking. -/
theorem c6_reset_effects (s : SysState) :
    (stepEv s Event.userClearConversation).app.conversation = [] ∧
    (stepEv s Event.userClearConversation).app.currentTranscript = "" ∧
    (stepEv s Event.userClearConversation).app.error = "" ∧
    (stepEv s Event.userClearConversation).app.isSpeaking = false ∧
    (stepEv s Event.userClearConversation).app.isListening = s.app.isListening ∧
    (stepEv s Event.userClearConversation).app.isProcessing = s.app.isProcessing := by
  simp [stepEv, enabledEv, applyEvent, stepClearConversation, stepStopSpeaking, synthCancel]

/-- Claim C6 counterexample: invoked in a reachable Listening state, reset
leaves isListening true, so it does not force the Idle state. -/
theorem c6_counterexample_reset_while_listening :
    validTrace sysInit listenTrace = true ∧
    (runTrace sysInit listenTrace).app.isListening = true ∧
    (stepEv (runTrace sysInit listenTrace) Event.userClearConversation).app.isListening =
      true := by decide

/-- Claim C7: when the answer request fails after a transcript from a
listening, non-speaking state, the controller ends Idle with a user-visible
error, the conversation still holds the appended user turn, and no bot turn
was appended. -/
theorem c7_answer_failure_idle_no_bot (s : SysState) (t : String)
    (hrec : s.recRunning = true) (hspeak : s.app.isSpeaking = false) :
    (stepEv (stepEv s (Event.recResult t)) Event.apiFailure).app.isListening = false ∧
    (stepEv (stepEv s (Event.recResult t)) Event.apiFailure).app.isProcessing = false ∧
    (stepEv (stepEv s (Event.recResult t)) Event.apiFailure).app.isSpeaking = false ∧
    (stepEv (stepEv s (Event.recResult t)) Event.apiFailure).app.conversation =
      s.app.conversation ++ [{ role := Role.user, text := t }] ∧
    (stepEv (stepEv s (Event.recResult t)) Event.apiFailure).app.error =
      "Failed to get AI response. Please try again." := by
  simp [stepEv, enabledEv, applyEvent, hrec, hspeak]

/-- Claim C7 witness: from the canonical listening state, a transcript
followed by a failing request ends Idle with exactly the user turn appended. -/
theorem c7_answer_failure_idle_no_bot_witness :
    (stepEv (stepEv listenSt (Event.recResult "hey")) Event.apiFailure).app.conversation =
      listenSt.app.conversation ++ [{ role := Role.user, text := "hey" }] ∧
    (stepEv (stepEv listenSt (Event.recResult "hey")) Event.apiFailure).app.isListening =
      false ∧
    (stepEv (stepEv listenSt (Event.recResult "hey")) Event.apiFailure).app.isProcessing =
      false ∧
    (stepEv (stepEv listenSt (Event.recResult "hey")) Event.apiFailure).app.isSpeaking =
      false := by
  have h := c7_answer_failure_idle_no_bot listenSt "hey" rfl rfl
  exact ⟨h.2.2.2.1, h.1, h.2.1, h.2.2.1⟩

/-- Claim C8: stopSpeaking immediately clears isSpeaking while leaving the
listening and processing flags unchanged — so from Speaking the controller is
Idle at once — and after the cancellation neither a synthesis start nor a
synthesis completion event can make isSpeaking true again. -/
theorem c8_stop_speaking_cancels (s : SysState) :
    (stepEv s Event.userStopSpeaking).app.isSpeaking = false ∧
    (stepEv s Event.userStopSpeaking).app.isListening = s.app.isListening ∧
    (stepEv s Event.userStopSpeaking).app.isProcessing = s.app.isProcessing ∧
    (stepEv (stepEv s Event.userStopSpeaking) Event.synthStart).app.isSpeaking = false ∧
    (stepEv (stepEv s Event.userStopSpeaking) Event.synthEnd).app.isSpeaking = false := by
  simp [stepEv, enabledEv, applyEvent, stepStopSpeaking, synthCancel]

/-- Claim C9: the rate limiter runs before body validation, so an admitted
request with an invalid body — missing, non-string, empty or over-long
question — is answered 400 yet still consumes one unit of budget: the record
is created at count 1, or its count incremented inside the window. -/
theorem c9_rate_limit_before_validation (rec : Option RateRecord) (now : Nat)
    (body : ReqBody) (u : Nat → Except String String)
    (hadm : (rateLimitStep rec now).1 = RateDecision.admitted)
    (hbad : invalidBody body = true) :
    handleAsk rec now body u = (400, (rateLimitStep rec now).2) ∧
    (rec = none →
        (rateLimitStep rec now).2 = { count := 1, resetTime := now + windowMs }) ∧
    (∀ c R, rec = some { count := c, resetTime := R } → now ≤ R →
        (rateLimitStep rec now).2 = { count := c + 1, resetTime := R }) := by
  refine ⟨?_, ?_, ?_⟩
  · cases body with
    | missingQuestion => simp [handleAsk, hadm]
    | nonStringQuestion => simp [handleAsk, hadm]
    | question q =>
        simp only [invalidBody, Bool.or_eq_true, beq_iff_eq, decide_eq_true_eq] at hbad
        by_cases hq : q = ""
        · simp [handleAsk, hadm, hq]
        · have hlen : 1000 < q.length := by
            rcases hbad with h | h
            · exact absurd h hq
            · exact h
          simp [handleAsk, hadm, hq, hlen]
  · intro h; subst h; rfl
  · intro c R h hle; subst h
    have h1 : ¬ (R < now) := not_lt.mpr hle
    have h2 : ¬ (maxRequests ≤ c) := by
      intro hc
      simp [rateLimitStep, h1, hc] at hadm
    simp [rateLimitStep, h1, h2]

/-- Claim C9 witness: a first-ever request with a missing question is answered
400 and still creates the rate-limit record at count 1. -/
theorem c9_rate_limit_before_validation_witness :
    handleAsk none 0 ReqBody.missingQuestion (fun _ => Except.ok "x") =
      (400, (rateLimitStep none 0).2) ∧
    (rateLimitStep none 0).2 = { count := 1, resetTime := 0 + windowMs } := by
  have h := c9_rate_limit_before_validation none 0 ReqBody.missingQuestion
    (fun _ => Except.ok "x") rfl rfl
  exact ⟨h.1, h.2.1 rfl⟩

/-- Claim C10: a failure is retryable exactly when its message contains the
substring 429 or the substring quota; any other failure is rethrown from the
first attempt with no delay and no further call, and the outer catch maps it
to HTTP 500. -/
theorem c10_retryable_classification :
    (∀ e : String, retryableError e =
        (decide ("429".toList <:+: e.toList) || decide ("quota".toList <:+: e.toList))) ∧
    (∀ (u : Nat → Except String String) (e : String),
        u 0 = Except.error e → retryableError e = false →
        invokeUpstream u = { outcome := .thrown e, calls := 1, delays := [] } ∧
        askStatus (InvokeOutcome.thrown e) = 500) := by
  refine ⟨fun e => rfl, ?_⟩
  intro u e h0 hr
  refine ⟨?_, rfl⟩
  simp [invokeUpstream, invokeGo, h0, hr]

/-- Claim C10 witness: an upstream failing with the non-retryable message boom
is propagated after one call with no delays and yields status 500. -/
theorem c10_retryable_classification_witness :
    invokeUpstream (fun _ => Except.error "boom") =
      { outcome := .thrown "boom", calls := 1, delays := [] } ∧
    askStatus (InvokeOutcome.thrown "boom") = 500 :=
  c10_retryable_classification.2 (fun _ => Except.error "boom") "boom" rfl (by decide)
